import Mathlib

/-!
# Verification of the annotation-parsing and spreadsheet-extraction core

A shallow embedding, in Lean 4, of the reconciliation core of the
`camda-estoque` inventory dashboard (`app_turso.py`): the free-text
annotation parser (`parse_annotation`), the stock-sheet extractor
(`parse_estoque_format`) and the sales-sheet extractor
(`parse_vendas_format`), together with the pre-compiled regular
expressions and lookup tables they use.

Modelling conventions, stated once here:

* Python `str` values are Lean `String`s.  The character-level string
  functions (`lower`, `upper`, `strip`, the `\s`/`\d`/`\w` regex
  classes) are modelled over ASCII plus the Latin-1 letter block
  (U+00C0–U+00FF), which covers the Portuguese text this program
  processes.  Multi-character case expansions (such as ß → SS) and
  non-Latin scripts are outside the model.
* Spreadsheet cells are `Option String`: `none` stands for a missing
  value (pandas `NaN`), `some s` for a cell whose `str()` form is `s`.
  Every use of a cell in the source goes through `str(...)`, `float(...)`
  or `pd.isna(...)`, all of which factor through this representation.
* `int(float(s))` is modelled by `pyIntFloat` for decimal forms
  (optional sign, digits, optional fraction) plus the `inf`/`nan`
  literals; exponent and hexadecimal forms, and magnitudes beyond the
  exact double range, are outside the model.  `int(±inf)` raises
  `OverflowError` in Python, which `except (ValueError, TypeError)`
  does not catch: that uncaught-exception path is represented
  explicitly by a `crash` result.
* The regular expressions are embedded as terms of a small regex AST
  (`RE`) evaluated by a backtracking matcher with Python semantics:
  ordered alternation, greedy repetition with backtracking, `re.match`
  anchored at the start only, `re.search` at the leftmost matching
  position.
* Duplicate column labels in a sheet are modelled as selecting the
  first column with that label (pandas would instead return a `Series`
  per row, a pathological case no claim depends on).
-/

/-! Section: Python character and string primitives -/

/-- The ASCII whitespace characters matched by Python's `\s` class and
stripped by `str.strip()` (the Unicode-only whitespace code points are
outside the model). -/
def isPyWs (c : Char) : Bool :=
  c = ' ' || c = '\t' || c = '\n' || c = '\r' || c = '\x0b' || c = '\x0c'

/-- ASCII decimal digit, the `\d` class. -/
def isPyDigit (c : Char) : Bool :=
  '0' ≤ c && c ≤ '9'

/-- ASCII letter, the class `[a-zA-Z]` of `_RE_ALPHA`. -/
def isAsciiLetter (c : Char) : Bool :=
  ('a' ≤ c && c ≤ 'z') || ('A' ≤ c && c ≤ 'Z')

/-- A Latin-1 letter (U+00C0–U+00FF without the two operator signs
× U+00D7 and ÷ U+00F7). -/
def isLatin1Letter (c : Char) : Bool :=
  (0xC0 ≤ c.toNat && c.toNat ≤ 0xFF) && c.toNat ≠ 0xD7 && c.toNat ≠ 0xF7

/-- Word character for the `\w` class: ASCII alphanumerics, underscore,
and Latin-1 letters. -/
def isWordChar (c : Char) : Bool :=
  isAsciiLetter c || isPyDigit c || c = '_' || isLatin1Letter c

/-- Class of `.` in a pattern: any character except a newline. -/
def isDotChar (c : Char) : Bool :=
  c ≠ '\n'

/-- Python `str.lower` on one character: ASCII A–Z and the Latin-1
uppercase block À–Þ (excluding ×) map down by 32. -/
def pyLowerChar (c : Char) : Char :=
  if 'A' ≤ c && c ≤ 'Z' then Char.ofNat (c.toNat + 32)
  else if (0xC0 ≤ c.toNat && c.toNat ≤ 0xDE) && c.toNat ≠ 0xD7 then Char.ofNat (c.toNat + 32)
  else c

/-- Python `str.upper` on one character: ASCII a–z and the Latin-1
lowercase block à–þ (excluding ÷) map up by 32. -/
def pyUpperChar (c : Char) : Char :=
  if 'a' ≤ c && c ≤ 'z' then Char.ofNat (c.toNat - 32)
  else if (0xE0 ≤ c.toNat && c.toNat ≤ 0xFE) && c.toNat ≠ 0xF7 then Char.ofNat (c.toNat - 32)
  else c

/-- Python `str.lower`. -/
def pyLower (s : String) : String :=
  String.mk (s.data.map pyLowerChar)

/-- Python `str.upper`. -/
def pyUpper (s : String) : String :=
  String.mk (s.data.map pyUpperChar)

/-- Python `str.strip()`: remove leading and trailing whitespace. -/
def pyStrip (s : String) : String :=
  String.mk (((s.data.dropWhile isPyWs).reverse.dropWhile isPyWs).reverse)

/-- Model of `_RE_SPACES.sub(" ", ·)`: replace every maximal run of whitespace
by a single space.  The boolean argument records whether the previous
character belonged to a whitespace run. -/
def collapseWsAux : Bool → List Char → List Char
  | _, [] => []
  | prevWs, c :: t =>
    if isPyWs c then
      if prevWs then collapseWsAux true t else ' ' :: collapseWsAux true t
    else c :: collapseWsAux false t

/-- Model of `_RE_SPACES.sub(" ", s)` on a string. -/
def collapseWs (s : String) : String :=
  String.mk (collapseWsAux false s.data)

/-- Is the first list a prefix of the second? -/
def listPref : List Char → List Char → Bool
  | [], _ => true
  | _ :: _, [] => false
  | a :: n, b :: h => a = b && listPref n h

/-- Is the first list a contiguous sublist of the second? -/
def listInfix (n : List Char) : List Char → Bool
  | [] => n.isEmpty
  | c :: t => listPref n (c :: t) || listInfix n t

/-- Python substring test `needle in haystack`. -/
def pySubstr (needle haystack : String) : Bool :=
  listInfix needle.data haystack.data

/-- Model of `int(...)` applied to a non-empty all-digit capture group. -/
def toNatDigits (s : String) : Nat :=
  s.data.foldl (fun a c => a * 10 + (c.toNat - 48)) 0

/-! Section: A backtracking regex engine with Python semantics -/

/-- Abstract syntax of the fragment of Python regular expressions used
by the pre-compiled patterns of the source: literals, greedy character
class repetition with a minimum count, concatenation, ordered
alternation, and numbered capture groups.  `p?` is `alt p eps`,
`p+` is `rep cls 1`, `p*` is `rep cls 0`. -/
inductive RE where
  | eps : RE
  | lit : String → RE
  | rep : (Char → Bool) → Nat → RE
  | seq : RE → RE → RE
  | alt : RE → RE → RE
  | grp : Nat → RE → RE

/-- Captured groups: group index paired with the matched text. -/
abbrev Caps := List (Nat × String)

/-- Match a literal: returns the rest of the input on success. -/
def litMatch : List Char → List Char → Option (List Char)
  | [], s => some s
  | _ :: _, [] => none
  | c :: p, d :: s => if c = d then litMatch p s else none

/-- Greedy repetition: try consuming `n` class characters first, then
backtrack one at a time down to `min`.  `n` starts at the length of the
longest class-satisfying prefix, so every tried prefix is valid. -/
def repTry (k : List Char → Option Caps) (s : List Char) (mn : Nat) : Nat → Option Caps
  | 0 => if mn = 0 then k s else none
  | n + 1 =>
    if n + 1 < mn then none
    else
      match k (s.drop (n + 1)) with
      | some cs => some cs
      | none => repTry k s mn n

/-- The backtracking matcher, continuation style: `reM r s k` tries to
match `r` against a prefix of `s`, calling `k` on the remainder; on
failure of the continuation it backtracks through alternation branches
and repetition lengths, exactly as Python's engine does (leftmost
alternative preferred, greedy repetition). -/
def reM : RE → List Char → (List Char → Option Caps) → Option Caps
  | .eps, s, k => k s
  | .lit l, s, k =>
    match litMatch l.data s with
    | some rest => k rest
    | none => none
  | .rep p mn, s, k => repTry k s mn (s.takeWhile p).length
  | .seq a b, s, k => reM a s (fun s2 => reM b s2 k)
  | .alt a b, s, k =>
    match reM a s k with
    | some cs => some cs
    | none => reM b s k
  | .grp i a, s, k =>
    reM a s (fun s2 => (k s2).map (fun cs => (i, String.mk (s.take (s.length - s2.length))) :: cs))

/-- Semantics of `pattern.match(s)`: anchored at position 0, the rest of the input
unconstrained. -/
def pyMatchRE (r : RE) (s : String) : Option Caps :=
  reM r s.data (fun _ => some [])

/-- Auxiliary for `search`: try each start position left to right. -/
def searchAux (r : RE) : List Char → Option Caps
  | [] => reM r [] (fun _ => some [])
  | c :: t =>
    match reM r (c :: t) (fun _ => some []) with
    | some cs => some cs
    | none => searchAux r t

/-- Semantics of `pattern.search(s)`: the leftmost position admitting a match. -/
def pySearchRE (r : RE) (s : String) : Option Caps :=
  searchAux r s.data

/-- Semantics of `m.group(i)` (our groups are always present exactly once on a
successful match). -/
def getGrp (cs : Caps) (i : Nat) : String :=
  ((cs.find? (fun p => p.1 == i)).map (·.2)).getD ""

/-! Section: The pre-compiled patterns of the source -/

/-- Sequence of a list of patterns. -/
def seqL (l : List RE) : RE :=
  l.foldr .seq .eps

/-- Ordered alternation of a head pattern and further branches,
leftmost preferred. -/
def altL (h : RE) (t : List RE) : RE :=
  t.foldl .alt h

/-- Optional pattern `p?` (greedy). -/
def optR (r : RE) : RE :=
  .alt r .eps

/-- Pattern `\s+`. -/
def wsPlus : RE := .rep isPyWs 1

/-- Pattern `\s*`. -/
def wsStar : RE := .rep isPyWs 0

/-- Pattern `(\d+)` as group `i`. -/
def digitsGrp (i : Nat) : RE := .grp i (.rep isPyDigit 1)

/-- Pattern `(.*)` as group `i`. -/
def restGrp (i : Nat) : RE := .grp i (.rep isDotChar 0)

/-- Pattern `_RE_FALTA`: `falt(?:a|ando|am|ou|aram|\.?)(?:\s+(?:de|do|da))?\s+(\d+)\s*(.*)` -/
def reFalta : RE :=
  seqL [.lit "falt",
        altL (.lit "a") [.lit "ando", .lit "am", .lit "ou", .lit "aram", optR (.lit ".")],
        optR (.seq wsPlus (altL (.lit "de") [.lit "do", .lit "da"])),
        wsPlus, digitsGrp 1, wsStar, restGrp 2]

/-- Pattern `_RE_FALTA_SHORT`: `^f\.?\s+(\d+)\s*(.*)` -/
def reFaltaShort : RE :=
  seqL [.lit "f", optR (.lit "."), wsPlus, digitsGrp 1, wsStar, restGrp 2]

/-- Pattern `_RE_SOBRA`: `(?:sobr(?:a|ando|am|ou|aram|\.?)|pass(?:a|ando|aram|ou|\.?))\s+(\d+)\s*(.*)` -/
def reSobra : RE :=
  seqL [.alt
          (.seq (.lit "sobr")
                (altL (.lit "a") [.lit "ando", .lit "am", .lit "ou", .lit "aram", optR (.lit ".")]))
          (.seq (.lit "pass")
                (altL (.lit "a") [.lit "ando", .lit "aram", .lit "ou", optR (.lit ".")])),
        wsPlus, digitsGrp 1, wsStar, restGrp 2]

/-- Pattern `_RE_SOBRA_SHORT`: `^s\.?\s+(\d+)\s*(.*)` -/
def reSobraShort : RE :=
  seqL [.lit "s", optR (.lit "."), wsPlus, digitsGrp 1, wsStar, restGrp 2]

/-- Pattern `_RE_FALTA_MID`: `falt\w*\s+(?:de\s+)?(\d+)` -/
def reFaltaMid : RE :=
  seqL [.lit "falt", .rep isWordChar 0, wsPlus, optR (.seq (.lit "de") wsPlus), digitsGrp 1]

/-- Pattern `_RE_SOBRA_MID`: `(?:sobr|pass)\w*\s+(\d+)` -/
def reSobraMid : RE :=
  seqL [.alt (.lit "sobr") (.lit "pass"), .rep isWordChar 0, wsPlus, digitsGrp 1]

/-! Section: the annotation parser -/

/-- The normalized text `tl` of `parse_annotation`:
`_RE_SPACES.sub(" ", text.lower()).strip()` applied to the stripped
note. -/
def tlOf (text : String) : String :=
  pyStrip (collapseWs (pyLower text))

/-- Embedding of `parse_annotation(nota, qtd_sistema)` of `app_turso.py`: returns
`(qtd_fisica, diferenca, observacao, status_type)`.  The tiers are the
ordered regex cascade of the source: anchored full/short shortage,
anchored full/short overage, embedded (searched) shortage and overage,
and the terminal fallback. -/
def parseNota (nota : String) (qtd_sistema : Int) : Int × Int × String × String :=
  if nota = "" then (qtd_sistema, 0, "", "ok")
  else
    let text := pyStrip nota
    if text = "" ∨ pyLower text = "nan" ∨ pyLower text = "none" then (qtd_sistema, 0, "", "ok")
    else
      let tl := tlOf text
      match pyMatchRE reFalta tl with
      | some cs =>
        let f : Int := toNatDigits (getGrp cs 1)
        (qtd_sistema - f, -f, pyStrip (getGrp cs 2), "falta")
      | none =>
      match pyMatchRE reFaltaShort tl with
      | some cs =>
        let f : Int := toNatDigits (getGrp cs 1)
        (qtd_sistema - f, -f, pyStrip (getGrp cs 2), "falta")
      | none =>
      match pyMatchRE reSobra tl with
      | some cs =>
        let s : Int := toNatDigits (getGrp cs 1)
        (qtd_sistema + s, s, pyStrip (getGrp cs 2), "sobra")
      | none =>
      match pyMatchRE reSobraShort tl with
      | some cs =>
        let s : Int := toNatDigits (getGrp cs 1)
        (qtd_sistema + s, s, pyStrip (getGrp cs 2), "sobra")
      | none =>
      match pySearchRE reFaltaMid tl with
      | some cs =>
        let f : Int := toNatDigits (getGrp cs 1)
        (qtd_sistema - f, -f, text, "falta")
      | none =>
      match pySearchRE reSobraMid tl with
      | some cs =>
        let s : Int := toNatDigits (getGrp cs 1)
        (qtd_sistema + s, s, text, "sobra")
      | none => (qtd_sistema, 0, text, "ok")

/-! Section: numeric cell coercion -/

/-- Outcome of the coercion `int(float(s))` in the quantity columns:
`ok n` is a normal result, `err` a `ValueError`/`TypeError` (caught by
the source's `except` clauses), `overflow` the `OverflowError` raised
by `int(±inf)`, which the source does NOT catch. -/
inductive Coerce where
  | ok : Int → Coerce
  | err : Coerce
  | overflow : Coerce
deriving Repr, DecidableEq

/-- Model of `int(float(s))` for decimal forms: surrounding whitespace allowed,
optional sign, digits with an optional fractional part (at least one
digit overall), truncation toward zero; `inf`/`infinity` raise
`OverflowError` at the `int` step and `nan` raises `ValueError`.
Exponent and hexadecimal float forms and magnitudes beyond the exact
double range are outside the model (treated as `err`). -/
def pyIntFloat (s : String) : Coerce :=
  let l := (pyLower (pyStrip s)).data
  let (neg, body) :=
    match l with
    | '+' :: r => (false, r)
    | '-' :: r => (true, r)
    | r => (false, r)
  if body = "inf".data ∨ body = "infinity".data then .overflow
  else if body = "nan".data then .err
  else
    let intD := body.takeWhile isPyDigit
    let rest := body.drop intD.length
    let valid :=
      match rest with
      | [] => !intD.isEmpty
      | '.' :: fr => (!intD.isEmpty || !fr.isEmpty) && fr.all isPyDigit
      | _ => false
    if valid then
      let n : Int := (toNatDigits (String.mk intD) : Nat)
      .ok (if neg then -n else n)
    else .err

/-- Pattern `_RE_ONLY_NUMBER`: `^\d+([.,]\d+)?$`, used with `match` on an
already-stripped note cell. -/
def isOnlyNumber (s : String) : Bool :=
  let l := s.data
  let d1 := l.takeWhile isPyDigit
  let r := l.drop d1.length
  !d1.isEmpty &&
    (r.isEmpty ||
      match r with
      | c :: d2 => (c = '.' || c = ',') && !d2.isEmpty && d2.all isPyDigit
      | [] => true)

/-- Pattern `_RE_COD_PROD`: `^(\d+)\s*-\s*(.+)$` applied with `match` to the
stripped product cell of the sales sheet; returns the two groups.  The
leading `\d+` and the `\s*` runs are forced to their maximal lengths
(no shorter choice can be followed by `-`), and `$` on a pre-stripped
input means end of string with no newline inside the `(.+)` group. -/
def splitCodProd (s : String) : Option (String × String) :=
  let l := s.data
  let d := l.takeWhile isPyDigit
  if d.isEmpty then none
  else
    match (l.drop d.length).dropWhile isPyWs with
    | '-' :: r3 =>
      let r4 := r3.dropWhile isPyWs
      if !r4.isEmpty && !r4.contains '\n' then some (String.mk d, String.mk r4)
      else none
    | _ => none

/-! Section: Category classification and group normalization tables -/

/-- Table `_CLASSIFY_RULES`: ordered `(category, keywords)` pairs. -/
def classifyRules : List (String × List String) :=
  [("HERBICIDAS", ["HERBICIDA"]),
   ("FUNGICIDAS", ["FUNGICIDA"]),
   ("INSETICIDAS", ["INSETICIDA"]),
   ("NEMATICIDAS", ["NEMATICIDA"]),
   ("ADUBOS FOLIARES", ["ADUBO FOLIAR"]),
   ("ADUBOS QUÍMICOS", ["ADUBO Q"]),
   ("ADUBOS CORRETIVOS", ["ADUBO CORRETIVO", "CALCARIO", "CALCÁRIO"]),
   ("ÓLEOS", ["OLEO", "ÓLEO"]),
   ("SEMENTES", ["SEMENTE"]),
   ("ADJUVANTES", ["ADJUVANTE", "ESPALHANTE"]),
   ("MEDICAMENTOS", ["MEDICAMENTO", "VERMIFUGO", "VERMÍFUGO", "VACINA", "ANTIBIOTICO", "ANTIBIÓTICO"])]

/-- Embedding of `classify_product`: first category whose keyword occurs in the
uppercased name, else `"OUTROS"`. -/
def classifyProduct (name : String) : String :=
  let n := pyUpper name
  match classifyRules.find? (fun rule => rule.2.any (fun kw => pySubstr kw n)) with
  | some rule => rule.1
  | none => "OUTROS"

/-- Table `_GRUPO_MAP`: raw sales-sheet group label → canonical label. -/
def grupoMap : List (String × String) :=
  [("ADUBOS FOLIARES", "ADUBOS FOLIARES"),
   ("ADUBOS QUIMICOS", "ADUBOS QUÍMICOS"),
   ("ADUBOS CORRETIVOS", "ADUBOS CORRETIVOS"),
   ("HERBICIDAS", "HERBICIDAS"), ("FUNGICIDAS", "FUNGICIDAS"),
   ("INSETICIDAS", "INSETICIDAS"), ("NEMATICIDAS", "NEMATICIDAS"),
   ("OLEO MINERAL E VEGETAL", "ÓLEOS"), ("ADJUVANTES", "ADJUVANTES"),
   ("SEMENTES", "SEMENTES"),
   ("MEDICAMENTOS", "MEDICAMENTOS"),
   ("MEDICAMENTOS VETERINÁRIOS", "MEDICAMENTOS"),
   ("MEDICAMENTOS VETERINARIOS", "MEDICAMENTOS"),
   ("VACINA AFTOSA", "VACINA AFTOSA"),
   ("VACINAS DIVERSAS/SOROS", "VACINAS DIVERSAS/SOROS"),
   ("ANTIBIOTICOS/ANTI-INFLAMATORIO", "ANTIBIOTICOS/ANTI-INFLAMATORIO"),
   ("ANESTESICO/ANALGESICO/DIURETIC", "ANESTESICO/ANALGESICO/DIURETIC"),
   ("ANTITOXICOS", "ANTITOXICOS"),
   ("VERMIFUGOS", "VERMIFUGOS"),
   ("MOSQUICIDA/CARRAPATICIDA/BERNI", "MOSQUICIDA/CARRAPATICIDA/BERNI"),
   ("UNGUENTOS/POMADAS", "UNGUENTOS/POMADAS"),
   ("HOMEOPATICO", "HOMEOPATICO"),
   ("HORMONIOS LEITEIROS", "HORMONIOS LEITEIROS"),
   ("TONICO MINERAL/VITAMINAS", "TONICO MINERAL/VITAMINAS"),
   ("REPRODUCAO ANIMAL", "REPRODUCAO ANIMAL"),
   ("REPRODUTORES", "REPRODUTORES"),
   ("IDENTIFICACAO ANIMAL", "IDENTIFICACAO ANIMAL"),
   ("INOCULANTES P/ SILAGEM", "INOCULANTES P/ SILAGEM"),
   ("DIETA ANIMAL", "DIETA ANIMAL"),
   ("RATICIDAS", "RATICIDAS")]

/-- Embedding of `normalize_grupo`: look the stripped uppercased label up in the
synonym table, defaulting to itself. -/
def normalizeGrupo (grupo : String) : String :=
  let key := pyUpper (pyStrip grupo)
  match grupoMap.find? (fun p => p.1 == key) with
  | some p => p.2
  | none => key

/-! Section: Spreadsheet grids and the stock-sheet extractor -/

/-- A spreadsheet cell: `none` is a missing value (pandas `NaN`),
`some s` a present value in its `str()` form. -/
abbrev Cell := Option String

/-- Python `str(v)` on a cell: `str(nan) = "nan"`. -/
def cellStr : Cell → String
  | none => "nan"
  | some s => s

/-- A raw sheet as read with `header=None`: rows of cells. -/
abbrev Grid := List (List Cell)

/-- Semantics of `row.get(name)` through pandas label lookup: the cell at the first
column whose (stripped) header label equals `name`; `none` when absent
or when the row is shorter than the sheet (pandas pads with `NaN`). -/
def getByName (colNames : List String) (row : List Cell) (name : String) : Cell :=
  match colNames.findIdx? (fun c => c == name) with
  | some i => (row.getD i none)
  | none => none

/-- Embedding of `_find_header`: index of the first row among the first `maxRows`
whose stripped uppercased cell texts satisfy `check`. -/
def findHeader (grid : Grid) (check : List String → Bool) (maxRows : Nat) : Option Nat :=
  (List.range (min maxRows grid.length)).find?
    (fun i => check (((grid.getD i []).map (fun v => pyUpper (pyStrip (cellStr v))))))

/-- The header test of `parse_estoque_format`: the row contains the
exact value `"PRODUTO"` and some value containing `"QUANTIDADE"` or
equal to `"QTD"`. -/
def estoqueHeaderCheck (vals : List String) : Bool :=
  vals.contains "PRODUTO" && vals.any (fun v => pySubstr "QUANTIDADE" v || v == "QTD")

/-- The resolved column roles of the stock sheet (`col_map`): each role
holds the claiming column's label.  Membership in the Python dict is
`Option.isSome` here (the stock extractor tests `not in col_map`, not
truthiness). -/
structure EstoqueCols where
  produto : Option String
  qtd : Option String
  codigo : Option String
  nota : Option String
deriving Repr, DecidableEq

/-- One step of the `elif` chain resolving column roles, first match
per role wins, columns scanned left to right. -/
def estoqueColStep (m : EstoqueCols) (c : String) : EstoqueCols :=
  let cu := pyStrip (pyUpper c)
  if cu = "PRODUTO" ∧ m.produto = none then { m with produto := some c }
  else if (pySubstr "QUANTIDADE" cu ∨ cu = "QTD") ∧ m.qtd = none then { m with qtd := some c }
  else if (cu = "CÓDIGO" ∨ cu = "CODIGO" ∨ cu = "COD") ∧ m.codigo = none then
    { m with codigo := some c }
  else if (pySubstr "OBS" cu ∨ pySubstr "NOTA" cu ∨ pySubstr "DIFEREN" cu ∨ pySubstr "ANOTA" cu)
          ∧ m.nota = none then
    { m with nota := some c }
  else m

/-- Resolve all column roles of the stock sheet. -/
def resolveEstoqueCols (colNames : List String) : EstoqueCols :=
  colNames.foldl estoqueColStep ⟨none, none, none, none⟩

/-- Model of `_RE_ALPHA.search(x)`: the string contains an ASCII letter. -/
def hasAlpha (s : String) : Bool :=
  s.data.any isAsciiLetter

/-- The free-text-column heuristic: does the column named `c` have,
among the first 20 non-missing values of the data rows, one that
contains a letter and is not the literal `"NAN"`/`"NONE"`/empty? -/
def sampleHasText (colNames : List String) (dataRows : Grid) (c : String) : Bool :=
  (((dataRows.map (fun row => getByName colNames row c)).filterMap id).take 20).any
    (fun x => hasAlpha x && !(["NAN", "NONE", ""].contains (pyUpper x)))

/-- The fallback scan for a note column: the first column not already
claimed by a role whose sampled values look like free text. -/
def notaFallback (colNames : List String) (dataRows : Grid) (used : List String) : Option String :=
  colNames.find? (fun c => !used.contains c && sampleHasText colNames dataRows c)

/-- One reconciled stock row (`records` entry of
`parse_estoque_format`). -/
structure StockRecord where
  codigo : String
  produto : String
  categoria : String
  qtd_sistema : Int
  qtd_fisica : Int
  diferenca : Int
  nota : String
  status : String
deriving Repr, DecidableEq

/-- Model of `_RE_NON_ALNUM.sub("", ·)`: keep only the characters `A`–`Z` and
`0`–`9`. -/
def keepAlnum (s : String) : String :=
  String.mk (s.data.filter (fun c => ('A' ≤ c && c ≤ 'Z') || isPyDigit c))

/-- The synthetic code `"AUTO_" + cleaned-name[:20]` for a row without
an explicit code. -/
def autoCode (produto : String) : String :=
  "AUTO_" ++ String.mk ((keepAlnum (pyUpper produto)).data.take 20)

/-- The note text a stock row hands to the annotation parser: stripped,
with the `"NAN"`/`"NONE"` sentinels and bare-number notes replaced by
the empty string; empty when no note column was resolved. -/
def estoqueNotaRaw (colNames : List String) (nName : Option String) (row : List Cell) : String :=
  match nName with
  | none => ""
  | some nn =>
    let s0 := pyStrip (cellStr (getByName colNames row nn))
    let s1 := if ["NAN", "NONE"].contains (pyUpper s0) then "" else s0
    if isOnlyNumber s1 then "" else s1

/-- The explicit product code of a stock row, after sentinel cleaning;
empty when no code column was resolved. -/
def estoqueCodigoRaw (colNames : List String) (cName : Option String) (row : List Cell) : String :=
  match cName with
  | none => ""
  | some cn =>
    let c := pyStrip (cellStr (getByName colNames row cn))
    if ["NAN", "NONE", ""].contains (pyUpper c) then "" else c

/-- Assemble one stock record from the cleaned row pieces, calling the
annotation parser exactly as the source loop does. -/
def mkStockRecord (produto codigo notaRaw : String) (n : Int) : StockRecord :=
  let out := parseNota notaRaw n
  { codigo := codigo, produto := produto, categoria := classifyProduct produto,
    qtd_sistema := n, qtd_fisica := out.1, diferenca := out.2.1,
    nota := out.2.2.1, status := out.2.2.2 }

/-- Outcome of one iteration of the stock-row loop. -/
inductive RowOut where
  | skip : RowOut
  | crash : String → RowOut
  | keep : StockRecord → RowOut
deriving Repr, DecidableEq

/-- The body of the row loop of `parse_estoque_format`: sentinel/blank
product rows and rows whose quantity is missing, unparseable or ≤ 0
are skipped; a quantity cell coercing to an infinite float crashes
(uncaught `OverflowError`); surviving rows yield a record. -/
def estoqueRow (colNames : List String) (pName qName : String) (cName nName : Option String)
    (row : List Cell) : RowOut :=
  let produto := pyStrip (cellStr (getByName colNames row pName))
  if produto = "" ∨ ["NAN", "NONE", "TOTAL", "PRODUTO", "ROLLUP"].contains (pyUpper produto) then
    .skip
  else
    match getByName colNames row qName with
    | none => .skip
    | some s =>
      match pyIntFloat s with
      | .err => .skip
      | .overflow => .crash "OverflowError"
      | .ok n =>
        if n ≤ 0 then .skip
        else
          let codigo0 := estoqueCodigoRaw colNames cName row
          let codigo := if codigo0 = "" then autoCode produto else codigo0
          .keep (mkStockRecord produto codigo (estoqueNotaRaw colNames nName row) n)

/-- The full row loop: records in row order, aborting with the
exception name if an iteration crashes. -/
def estoqueLoop (colNames : List String) (pName qName : String) (cName nName : Option String) :
    Grid → Except String (List StockRecord)
  | [] => .ok []
  | row :: rest =>
    match estoqueRow colNames pName qName cName nName row with
    | .crash e => .error e
    | .skip => estoqueLoop colNames pName qName cName nName rest
    | .keep r =>
      match estoqueLoop colNames pName qName cName nName rest with
      | .error e => .error e
      | .ok rs => .ok (r :: rs)

/-- Result of `parse_estoque_format`: the tagged `(False, msg)` /
`(True, records)` pair of the source, plus `crash` for the
uncaught-exception path. -/
inductive EstoqueResult where
  | failure : String → EstoqueResult
  | success : List StockRecord → EstoqueResult
  | crash : String → EstoqueResult
deriving Repr, DecidableEq

/-- Python `repr` of a list of strings as interpolated by the f-string
diagnostics (single-quoted items; items containing a single quote,
which Python would re-quote, do not occur in practice). -/
def pyListRepr (l : List String) : String :=
  "[" ++ String.intercalate ", " (l.map (fun s => "'" ++ s ++ "'")) ++ "]"

/-- Embedding of `parse_estoque_format(df_raw)`. -/
def parseEstoqueFormat (grid : Grid) : EstoqueResult :=
  match findHeader grid estoqueHeaderCheck 15 with
  | none => .failure "Cabeçalho não encontrado. Preciso de 'Produto' e 'Quantidade'."
  | some h =>
    let colNames := (grid.getD h []).map (fun c => pyStrip (cellStr c))
    let dataRows := grid.drop (h + 1)
    let cols := resolveEstoqueCols colNames
    match cols.produto, cols.qtd with
    | some pName, some qName =>
      let nName :=
        match cols.nota with
        | some nn => some nn
        | none => notaFallback colNames dataRows ([pName, qName] ++ cols.codigo.toList)
      (match estoqueLoop colNames pName qName cols.codigo nName dataRows with
       | .error e => .crash e
       | .ok [] => .failure "Nenhum dado válido na planilha de estoque."
       | .ok recs => .success recs)
    | _, _ =>
      .failure ("Colunas: " ++ pyListRepr colNames ++ " — falta 'Produto' ou 'Quantidade'.")

/-! Section: The sales-sheet extractor -/

/-- The header test of `parse_vendas_format`: the row contains the
exact value `"PRODUTO"`, and the space-joined row text contains
`"QTDD"` or `"VENDIDA"`. -/
def vendasHeaderCheck (vals : List String) : Bool :=
  vals.contains "PRODUTO" &&
    (pySubstr "QTDD" (String.intercalate " " vals) ||
     pySubstr "VENDIDA" (String.intercalate " " vals))

/-- Python truthiness of an optional column label: `None` and the empty
label are falsy (the sales extractor tests `not col_x`, truthiness --
unlike the stock extractor's dict membership). -/
def colTruthy : Option String → Bool
  | none => false
  | some s => s ≠ ""

/-- The resolved column labels of the sales sheet. -/
structure VendasCols where
  grupo : Option String
  produto : Option String
  vendida : Option String
  estoque : Option String
  nota : Option String
deriving Repr, DecidableEq

/-- One step of the `elif` chain resolving sales columns. -/
def vendasColStep (m : VendasCols) (c : String) : VendasCols :=
  let cu := pyStrip (pyUpper c)
  if pySubstr "GRUPO" cu ∧ ¬colTruthy m.grupo then { m with grupo := some c }
  else if cu = "PRODUTO" ∧ ¬colTruthy m.produto then { m with produto := some c }
  else if pySubstr "VENDIDA" cu ∧ ¬colTruthy m.vendida then { m with vendida := some c }
  else if pySubstr "ESTOQUE" cu ∧ ¬colTruthy m.estoque then { m with estoque := some c }
  else if (pySubstr "OBS" cu ∨ pySubstr "NOTA" cu ∨ pySubstr "ANOTA" cu) ∧ ¬colTruthy m.nota then
    { m with nota := some c }
  else m

/-- Resolve the sales columns, including the `"CUSTO"` fallback for the
note column. -/
def resolveVendasCols (colNames : List String) : VendasCols :=
  let m := colNames.foldl vendasColStep ⟨none, none, none, none, none⟩
  if ¬colTruthy m.nota then
    match colNames.find? (fun c => pySubstr "CUSTO" (pyStrip (pyUpper c))) with
    | some c => { m with nota := some c }
    | none => m
  else m

/-- One sales record (`records` entry of `parse_vendas_format`). -/
structure VendasRecord where
  codigo : String
  produto : String
  categoria : String
  qtd_sistema : Int
  qtd_fisica : Int
  diferenca : Int
  nota : String
  status : String
  qtd_vendida : Int
deriving Repr, DecidableEq

/-- A stock-out entry (`zerados` list): zero or negative stock with a
positive sold quantity. -/
structure Zerado where
  codigo : String
  produto : String
  grupo : String
  qtd_vendida : Int
  qtd_estoque : Int
deriving Repr, DecidableEq

/-- A sales quantity cell coerced like the source: missing stays 0,
parse failures stay 0 (`except ... pass`), infinities crash. -/
def vendasQty (colNames : List String) (row : List Cell) (col : Option String) : Coerce :=
  if colTruthy col then
    match getByName colNames row (col.getD "") with
    | none => .ok 0
    | some s =>
      match pyIntFloat s with
      | .ok n => .ok n
      | .err => .ok 0
      | .overflow => .overflow
  else .ok 0

/-- The note text a sales row hands to the annotation parser: kept only
when not a sentinel and not a bare number. -/
def vendasNotaRaw (colNames : List String) (nName : Option String) (row : List Cell) : String :=
  if colTruthy nName then
    let nv := pyStrip (cellStr (getByName colNames row (nName.getD "")))
    if !(["NAN", "NONE", ""].contains (pyUpper nv)) && !isOnlyNumber nv then nv else ""
  else ""

/-- Assemble one sales record from the cleaned row pieces, calling the
annotation parser exactly as the source loop does. -/
def mkVendasRecord (codigo produto categoria notaRaw : String) (qs qv : Int) : VendasRecord :=
  let out := parseNota notaRaw qs
  { codigo := codigo, produto := produto, categoria := categoria,
    qtd_sistema := qs, qtd_fisica := out.1, diferenca := out.2.1,
    nota := out.2.2.1, status := out.2.2.2, qtd_vendida := qv }

/-- Outcome of one iteration of the sales-row loop. -/
inductive VRowOut where
  | skip : VRowOut
  | zer : Zerado → VRowOut
  | keep : VendasRecord → VRowOut
  | crash : String → VRowOut
deriving Repr, DecidableEq

/-- The body of the sales-row loop: updates the running group, splits
`"code - product"` cells, coerces the two quantity columns, routes
zero-stock rows with sales to the `zerados` side list, and builds a
record otherwise.  Returns the updated running group with the
outcome. -/
def vendasRow (colNames : List String) (cols : VendasCols) (grupo : String) (row : List Cell) :
    String × VRowOut :=
  let grupo1 :=
    if colTruthy cols.grupo then
      let g := pyStrip (cellStr (getByName colNames row (cols.grupo.getD "")))
      if g ≠ "" ∧ ¬(["NAN", "NONE", ""].contains (pyUpper g)) then g else grupo
    else grupo
  let rawProd := pyStrip (cellStr (getByName colNames row (cols.produto.getD "")))
  if rawProd = "" ∨ ["NAN", "NONE", "ROLLUP"].contains (pyUpper rawProd) then (grupo1, .skip)
  else
    let (codigo, produto) :=
      match splitCodProd rawProd with
      | some (g1, g2) => (pyStrip g1, pyStrip g2)
      | none => (autoCode rawProd, rawProd)
    match vendasQty colNames row cols.estoque, vendasQty colNames row cols.vendida with
    | .ok qs, .ok qv =>
      if qs ≤ 0 then
        if qv > 0 then
          (grupo1, .zer { codigo := codigo, produto := produto,
                          grupo := normalizeGrupo grupo1, qtd_vendida := qv, qtd_estoque := 0 })
        else (grupo1, .skip)
      else
        let categoria0 := normalizeGrupo grupo1
        let categoria := if categoria0 = "OUTROS" ∨ categoria0 = "" then classifyProduct produto
                         else categoria0
        (grupo1, .keep (mkVendasRecord codigo produto categoria
          (vendasNotaRaw colNames cols.nota row) qs qv))
    | _, _ => (grupo1, .crash "OverflowError")

/-- The sales-row loop, threading the running group, collecting records
and `zerados` in row order. -/
def vendasLoop (colNames : List String) (cols : VendasCols) :
    String → Grid → Except String (List VendasRecord × List Zerado)
  | _, [] => .ok ([], [])
  | grupo, row :: rest =>
    match vendasRow colNames cols grupo row with
    | (_, .crash e) => .error e
    | (g1, .skip) => vendasLoop colNames cols g1 rest
    | (g1, .zer z) =>
      match vendasLoop colNames cols g1 rest with
      | .error e => .error e
      | .ok (rs, zs) => .ok (rs, z :: zs)
    | (g1, .keep r) =>
      match vendasLoop colNames cols g1 rest with
      | .error e => .error e
      | .ok (rs, zs) => .ok (r :: rs, zs)

/-- Result of `parse_vendas_format`: `(False, msg, [])` or
`(True, records, zerados)`, plus the uncaught-exception path. -/
inductive VendasResult where
  | failure : String → VendasResult
  | success : List VendasRecord → List Zerado → VendasResult
  | crash : String → VendasResult
deriving Repr, DecidableEq

/-- Embedding of `parse_vendas_format(df_raw)`. -/
def parseVendasFormat (grid : Grid) : VendasResult :=
  match findHeader grid vendasHeaderCheck 15 with
  | none => .failure "Cabeçalho não encontrado no formato vendas."
  | some h =>
    let colNames := (grid.getD h []).map (fun c => pyStrip (cellStr c))
    let dataRows := grid.drop (h + 1)
    let cols := resolveVendasCols colNames
    if ¬colTruthy cols.produto then
      .failure ("Coluna 'PRODUTO' não encontrada. Colunas: " ++ pyListRepr colNames)
    else if ¬colTruthy cols.estoque ∧ ¬colTruthy cols.vendida then
      .failure "Nenhuma coluna de quantidade encontrada."
    else
      match vendasLoop colNames cols "OUTROS" dataRows with
      | .error e => .crash e
      | .ok ([], _) => .failure "Nenhum dado válido na planilha de vendas."
      | .ok (recs, zers) => .success recs zers

/-! Section: general lemmas about the annotation parser -/

/-- In every branch of the parser the reported difference is the
returned physical quantity minus the system quantity. -/
theorem parseNota_diff_eq (nota : String) (q : Int) :
    (parseNota nota q).2.1 = (parseNota nota q).1 - q := by
  simp only [parseNota]
  repeat' split
  all_goals simp

/-- The parser assigns no status beyond the three of the source. -/
theorem parseNota_status_range (nota : String) (q : Int) :
    (parseNota nota q).2.2.2 = "ok" ∨ (parseNota nota q).2.2.2 = "falta" ∨
      (parseNota nota q).2.2.2 = "sobra" := by
  simp only [parseNota]
  repeat' split
  all_goals simp

/-- Evaluating the parser on the empty note. -/
theorem parseNota_empty (q : Int) : parseNota "" q = (q, 0, "", "ok") := rfl

/-- Every record assembled by `mkStockRecord` satisfies the difference
invariant. -/
theorem mkStockRecord_diff (p c nr : String) (n : Int) :
    (mkStockRecord p c nr n).diferenca =
      (mkStockRecord p c nr n).qtd_fisica - (mkStockRecord p c nr n).qtd_sistema := by
  simp only [mkStockRecord]
  exact parseNota_diff_eq nr n

/-- A kept stock row satisfies the difference invariant. -/
theorem estoqueRow_keep_diff (colNames : List String) (pName qName : String)
    (cName nName : Option String) (row : List Cell) (r : StockRecord)
    (hk : estoqueRow colNames pName qName cName nName row = .keep r) :
    r.diferenca = r.qtd_fisica - r.qtd_sistema := by
  simp only [estoqueRow] at hk
  repeat' split at hk
  all_goals first
    | (exfalso; exact RowOut.noConfusion hk)
    | (cases hk; exact mkStockRecord_diff _ _ _ _)

/-- Every record in a successful run of the stock-row loop satisfies
the difference invariant. -/
theorem estoqueLoop_diff (colNames : List String) (pName qName : String)
    (cName nName : Option String) :
    ∀ rows recs, estoqueLoop colNames pName qName cName nName rows = .ok recs →
      ∀ r ∈ recs, r.diferenca = r.qtd_fisica - r.qtd_sistema := by
  intro rows
  induction rows with
  | nil =>
    intro recs h r hr
    simp only [estoqueLoop] at h
    cases h
    simp at hr
  | cons row rest ih =>
    intro recs h r hr
    simp only [estoqueLoop] at h
    split at h
    · cases h
    · exact ih recs h r hr
    · rename_i r0 hrow
      split at h
      · cases h
      · rename_i rs hrest
        cases h
        rcases List.mem_cons.mp hr with h1 | h2
        · subst h1
          exact estoqueRow_keep_diff _ _ _ _ _ _ _ hrow
        · exact ih rs hrest r h2

/-- Inversion for a successful run of the stock extractor: the records
come from some run of the row loop. -/
theorem parseEstoqueFormat_success (grid : Grid) (recs : List StockRecord)
    (h : parseEstoqueFormat grid = .success recs) :
    ∃ colNames pName qName cName nName rows,
      estoqueLoop colNames pName qName cName nName rows = .ok recs := by
  simp only [parseEstoqueFormat] at h
  split at h
  · cases h
  · split at h
    · split at h
      · cases h
      · cases h
      · rename_i heq
        cases h
        exact ⟨_, _, _, _, _, _, heq⟩
    · cases h

/-! Section: the claims -/

/-- C1.  For every note text and every system quantity, the 4-tuple
returned by the annotation parser satisfies
`difference = qty_physical - qty_system`; and every stock record built
by the stock extractor satisfies the same equation on its
`qtd_fisica`, `diferenca` and `qtd_sistema` fields. -/
theorem difference_invariant :
    (∀ nota q, (parseNota nota q).2.1 = (parseNota nota q).1 - q) ∧
    (∀ grid recs r, parseEstoqueFormat grid = .success recs → r ∈ recs →
      r.diferenca = r.qtd_fisica - r.qtd_sistema) := by
  refine ⟨parseNota_diff_eq, ?_⟩
  intro grid recs r h hr
  obtain ⟨cn, pN, qN, cN, nN, rows, hloop⟩ := parseEstoqueFormat_success grid recs h
  exact estoqueLoop_diff cn pN qN cN nN rows recs hloop r hr

/-- Witness for C1: the invariant evaluated on a concrete note and on
the one record extracted from a concrete one-product stock sheet. -/
theorem difference_invariant_witness :
    (parseNota "falta 2" 9).2.1 = (parseNota "falta 2" 9).1 - 9 ∧
    ({ codigo := "AUTO_P", produto := "P", categoria := "OUTROS", qtd_sistema := 4,
       qtd_fisica := 4, diferenca := 0, nota := "", status := "ok" } : StockRecord).diferenca =
      ({ codigo := "AUTO_P", produto := "P", categoria := "OUTROS", qtd_sistema := 4,
         qtd_fisica := 4, diferenca := 0, nota := "", status := "ok" } : StockRecord).qtd_fisica -
        ({ codigo := "AUTO_P", produto := "P", categoria := "OUTROS", qtd_sistema := 4,
           qtd_fisica := 4, diferenca := 0, nota := "", status := "ok" } : StockRecord).qtd_sistema :=
  ⟨difference_invariant.1 "falta 2" 9,
   difference_invariant.2 [[some "Produto", some "Quantidade"], [some "P", some "4"]]
     [{ codigo := "AUTO_P", produto := "P", categoria := "OUTROS", qtd_sistema := 4,
        qtd_fisica := 4, diferenca := 0, nota := "", status := "ok" }] _ (by rfl) (by simp)⟩

/-- C2 counterexample.  The note "avariado" (a damage stem) with no
shortage/overage tier matching is NOT classified as damaged: the source
parser has no damage-keyword tier, so the claimed result is refuted at
this concrete input (the actual result carries status `"ok"`). -/
theorem no_damage_tier_counterexample :
    parseNota "avariado" 7 ≠ ((7 : Int), 0, "avariado", "damaged") := by
  decide

/-- C2 amended.  The parser never returns a `damaged` status: its
status range is exactly `ok`/`falta`/`sobra`, so a note containing a
damage stem on which no shortage/overage tier matches falls through to
the terminal `ok` fallback with no quantity correction. -/
theorem no_damage_status (nota : String) (q : Int) :
    (parseNota nota q).2.2.2 ≠ "damaged" ∧
      parseNota "avariado" 7 = (7, 0, "avariado", "ok") := by
  refine ⟨?_, by rfl⟩
  rcases parseNota_status_range nota q with h | h | h <;> simp [h]

/-- C3.  Tier precedence on "falta 5 avariado" with system quantity 20:
the anchored shortage tier matches (with groups "5" and "avariado") and
wins, giving exactly `(15, -5, "avariado", falta)`. -/
theorem tier_precedence_falta_avariado :
    parseNota "falta 5 avariado" 20 = (15, -5, "avariado", "falta") ∧
      pyMatchRE reFalta (tlOf (pyStrip "falta 5 avariado")) = some [(1, "5"), (2, "avariado")] :=
  ⟨by rfl, by rfl⟩

/-- C4.  Shorthand equivalence: "f 3 caixa" and "falta 3 caixa" parse
to the identical tuple `(7, -3, "caixa", falta)` at system quantity
10. -/
theorem shorthand_equivalence :
    parseNota "f 3 caixa" 10 = (7, -3, "caixa", "falta") ∧
      parseNota "falta 3 caixa" 10 = (7, -3, "caixa", "falta") ∧
      parseNota "f 3 caixa" 10 = parseNota "falta 3 caixa" 10 :=
  ⟨by rfl, by rfl, by rfl⟩

/-- C5 counterexample.  The terminal fallback does not pass the note
text through unmodified: the source returns `nota.strip()`, so a note
with surrounding whitespace on which no tier matches comes back
stripped, refuting the claim at the concrete input `" ok "`. -/
theorem terminal_fallback_strips_counterexample :
    parseNota " ok " 9 ≠ ((9 : Int), 0, " ok ", "ok") := by
  decide

/-- C5 amended.  The parser is total by construction (it is a Lean
function into 4-tuples), and whenever the blank/null guard does not
fire and no tier pattern matches the normalized text, it returns the
terminal fallback `(qty_system, 0, strip(note), ok)` — the note text
stripped of surrounding whitespace but otherwise unmodified. -/
theorem terminal_fallback (nota : String) (q : Int)
    (hs : pyStrip nota ≠ "")
    (hn : pyLower (pyStrip nota) ≠ "nan")
    (ho : pyLower (pyStrip nota) ≠ "none")
    (h1 : pyMatchRE reFalta (tlOf (pyStrip nota)) = none)
    (h2 : pyMatchRE reFaltaShort (tlOf (pyStrip nota)) = none)
    (h3 : pyMatchRE reSobra (tlOf (pyStrip nota)) = none)
    (h4 : pyMatchRE reSobraShort (tlOf (pyStrip nota)) = none)
    (h5 : pySearchRE reFaltaMid (tlOf (pyStrip nota)) = none)
    (h6 : pySearchRE reSobraMid (tlOf (pyStrip nota)) = none) :
    parseNota nota q = (q, 0, pyStrip nota, "ok") := by
  have hne : nota ≠ "" := by
    intro h
    exact hs (by rw [h]; rfl)
  simp [parseNota, hne, hs, hn, ho, h1, h2, h3, h4, h5, h6]

/-- Witness for C5: the spec's own example, a free-text note matching
no tier, is passed through (it has no surrounding whitespace, so
stripping returns it verbatim). -/
theorem terminal_fallback_witness :
    parseNota "produto trocado pelo cliente" 9 = (9, 0, "produto trocado pelo cliente", "ok") := by
  have h := terminal_fallback "produto trocado pelo cliente" 9
    (by decide) (by decide) (by decide) (by decide) (by decide)
    (by decide) (by decide) (by decide) (by decide)
  simpa using h

/-- C6.  Blank/null guard: whenever the stripped note is empty or its
lowercase form is the literal "nan" or "none" (equivalently, whenever
the whitespace-collapsed normalized form is so), the parser returns
`(qty_system, 0, "", ok)`. -/
theorem blank_null_guard (nota : String) (q : Int)
    (h : pyStrip nota = "" ∨ pyLower (pyStrip nota) = "nan" ∨ pyLower (pyStrip nota) = "none") :
    parseNota nota q = (q, 0, "", "ok") := by
  by_cases hne : nota = ""
  · rw [hne]; rfl
  · simp only [parseNota, hne, ite_false, if_false]
    rw [if_pos h]

/-- Witness for C6: the two examples of the claim, `parse("", 12)` and
`parse("NaN", 12)`. -/
theorem blank_null_guard_witness :
    parseNota "" 12 = (12, 0, "", "ok") ∧ parseNota "NaN" 12 = (12, 0, "", "ok") :=
  ⟨blank_null_guard "" 12 (by decide), blank_null_guard "NaN" 12 (by decide)⟩

/-- C9.  No clamping at zero: when the parsed shortage amount exceeds
the system quantity the returned physical quantity is negative, as on
"falta 5" with system quantity 3. -/
theorem no_zero_clamp :
    parseNota "falta 5" 3 = (-2, -5, "", "falta") ∧ (parseNota "falta 5" 3).1 < 0 :=
  ⟨by rfl, by decide⟩

/-- A note cell that is a bare number yields the empty note text in the
stock extractor (whether or not it also equals a sentinel). -/
theorem estoqueNotaRaw_bare_number (colNames : List String) (nn : String) (row : List Cell)
    (h : isOnlyNumber (pyStrip (cellStr (getByName colNames row nn))) = true) :
    estoqueNotaRaw colNames (some nn) row = "" := by
  simp only [estoqueNotaRaw]
  by_cases hp :
      (["NAN", "NONE"].contains (pyUpper (pyStrip (cellStr (getByName colNames row nn)))) = true)
  · rw [if_pos hp]
    split <;> rfl
  · rw [if_neg hp, if_pos h]

/-- A note cell that is a bare number yields the empty note text in the
sales extractor. -/
theorem vendasNotaRaw_bare_number (colNames : List String) (nName : Option String)
    (row : List Cell)
    (h : isOnlyNumber (pyStrip (cellStr (getByName colNames row (nName.getD "")))) = true) :
    vendasNotaRaw colNames nName row = "" := by
  simp only [vendasNotaRaw]
  split
  · simp [h]
  · rfl

/-- C7.  Row filtering in the stock extractor: a row whose product cell
is blank or a sentinel token is skipped; a row whose quantity cell is
missing, non-numeric, or coerces (float-then-int) to a value ≤ 0 is
skipped; and on the concrete grid of the spec the `"0"` row is dropped
while the `"15.0"` row is retained with system quantity 15. -/
theorem row_filtering :
    (∀ colNames pName qName cName nName row,
       (pyStrip (cellStr (getByName colNames row pName)) = "" ∨
        ["NAN", "NONE", "TOTAL", "PRODUTO", "ROLLUP"].contains
          (pyUpper (pyStrip (cellStr (getByName colNames row pName)))) = true) →
       estoqueRow colNames pName qName cName nName row = .skip) ∧
    (∀ colNames pName qName cName nName row,
       (getByName colNames row qName = none ∨
        (∃ s, getByName colNames row qName = some s ∧ pyIntFloat s = .err) ∨
        (∃ s n, getByName colNames row qName = some s ∧ pyIntFloat s = .ok n ∧ n ≤ 0)) →
       estoqueRow colNames pName qName cName nName row = .skip) ∧
    parseEstoqueFormat
        [[some "x", none], [some "Produto", some "Quantidade"],
         [some "A", some "0"], [some "B", some "15.0"]] =
      .success [{ codigo := "AUTO_B", produto := "B", categoria := "OUTROS",
                  qtd_sistema := 15, qtd_fisica := 15, diferenca := 0,
                  nota := "", status := "ok" }] := by
  refine ⟨?_, ?_, by rfl⟩
  · intro colNames pName qName cName nName row h
    simp only [estoqueRow]
    rw [if_pos h]
  · intro colNames pName qName cName nName row h
    simp only [estoqueRow]
    split
    · rfl
    · rcases h with hnone | ⟨s, hs, herr⟩ | ⟨s, n, hs, hok, hle⟩
      · rw [hnone]
      · simp only [hs, herr]
      · simp only [hs, hok]
        rw [if_pos hle]

/-- Witness for C7: a sentinel-product row and a zero-quantity row,
each skipped, via the two universally quantified parts. -/
theorem row_filtering_witness :
    estoqueRow ["Produto", "Quantidade"] "Produto" "Quantidade" none none
        [some "TOTAL", some "3"] = .skip ∧
      estoqueRow ["Produto", "Quantidade"] "Produto" "Quantidade" none none
        [some "B", some "0"] = .skip :=
  ⟨row_filtering.1 _ _ _ _ _ _ (by decide),
   row_filtering.2.1 _ _ _ _ _ _ (Or.inr (Or.inr ⟨"0", 0, by rfl, by rfl, by decide⟩))⟩

/-- C8.  The stock extractor is not exception-free: a quantity cell
reading `"inf"` passes the `pd.isna` test, `float("inf")` produces an
infinite value, and `int(...)` then raises `OverflowError`, which the
source's `except (ValueError, TypeError)` clause does not catch — the
uncaught exception is the `crash` result of the embedding, contradicting
the tagged-failure contract. -/
theorem estoque_overflow_crash :
    parseEstoqueFormat [[some "Produto", some "Quantidade"], [some "X", some "inf"]] =
      .crash "OverflowError" := by
  rfl

/-- C10.  In both extractors, a note cell that is a bare number
(digits with an optional single `.`/`,` decimal part) is replaced by
the empty string before the annotation parser runs, so every record
kept from such a row has status `ok`, difference 0 and an empty
note. -/
theorem bare_number_note :
    (∀ colNames pName qName cName nn row r,
       isOnlyNumber (pyStrip (cellStr (getByName colNames row nn))) = true →
       estoqueRow colNames pName qName cName (some nn) row = .keep r →
       r.status = "ok" ∧ r.diferenca = 0 ∧ r.nota = "") ∧
    (∀ colNames cols grupo row g1 r,
       isOnlyNumber (pyStrip (cellStr (getByName colNames row (cols.nota.getD "")))) = true →
       vendasRow colNames cols grupo row = (g1, .keep r) →
       r.status = "ok" ∧ r.diferenca = 0 ∧ r.nota = "") := by
  constructor
  · intro colNames pName qName cName nn row r hnum hk
    simp only [estoqueRow] at hk
    rw [estoqueNotaRaw_bare_number colNames nn row hnum] at hk
    repeat' split at hk
    all_goals first
      | (exfalso; exact RowOut.noConfusion hk)
      | (cases hk; exact ⟨rfl, rfl, rfl⟩)
  · intro colNames cols grupo row g1 r hnum hk
    simp only [vendasRow] at hk
    rw [vendasNotaRaw_bare_number colNames cols.nota row hnum] at hk
    repeat' split at hk
    all_goals injection hk with hg ho
    all_goals first
      | (exfalso; exact VRowOut.noConfusion ho)
      | (cases ho; exact ⟨rfl, rfl, rfl⟩)

/-- Witness for C10: a bare-number note `"12,5"` in a stock row and a
bare-number note `"12"` in a sales row, each producing a kept record
with status `ok`, difference 0 and empty note. -/
theorem bare_number_note_witness :
    (({ codigo := "AUTO_P", produto := "P", categoria := "OUTROS", qtd_sistema := 5,
        qtd_fisica := 5, diferenca := 0, nota := "", status := "ok" } : StockRecord).status = "ok" ∧
     ({ codigo := "AUTO_P", produto := "P", categoria := "OUTROS", qtd_sistema := 5,
        qtd_fisica := 5, diferenca := 0, nota := "", status := "ok" } : StockRecord).diferenca = 0 ∧
     ({ codigo := "AUTO_P", produto := "P", categoria := "OUTROS", qtd_sistema := 5,
        qtd_fisica := 5, diferenca := 0, nota := "", status := "ok" } : StockRecord).nota = "") ∧
    (({ codigo := "AUTO_P", produto := "P", categoria := "OUTROS", qtd_sistema := 5,
        qtd_fisica := 5, diferenca := 0, nota := "", status := "ok",
        qtd_vendida := 0 } : VendasRecord).status = "ok" ∧
     ({ codigo := "AUTO_P", produto := "P", categoria := "OUTROS", qtd_sistema := 5,
        qtd_fisica := 5, diferenca := 0, nota := "", status := "ok",
        qtd_vendida := 0 } : VendasRecord).diferenca = 0 ∧
     ({ codigo := "AUTO_P", produto := "P", categoria := "OUTROS", qtd_sistema := 5,
        qtd_fisica := 5, diferenca := 0, nota := "", status := "ok",
        qtd_vendida := 0 } : VendasRecord).nota = "") :=
  ⟨bare_number_note.1 ["Produto", "Quantidade", "Obs"] "Produto" "Quantidade" none "Obs"
     [some "P", some "5", some "12,5"] _ (by rfl) (by rfl),
   bare_number_note.2 ["Produto", "Qtdd Estoque", "Obs"]
     ⟨none, some "Produto", none, some "Qtdd Estoque", some "Obs"⟩ "OUTROS"
     [some "P", some "5", some "12"] "OUTROS" _ (by rfl) (by rfl)⟩
